import Mathlib

/-!
Verification development for the recommendation-service repository.

The program is JavaScript; this file gives a shallow embedding of the parts
of the code that the checked claims are about, together with theorems that
settle each claim.  Conventions used throughout the embedding:

* JavaScript numbers that are used as fractional weights or scores are
  modelled as rationals; timestamps (milliseconds since epoch) as integers.
* JavaScript Date parsing is modelled by an abstract parameter
  `parse : String → Option Int`; `none` stands for an invalid date (NaN).
* Asynchronous calls to the relational store and to the external platform
  are modelled by an environment record holding the outcome of each call
  (`Except` values: `.error` stands for a thrown exception or rejected
  request).
* JavaScript truthiness on optional strings (undefined, null and the empty
  string are falsy) is modelled by the helper `truthy`.
* Opaque serialized `metadata` payloads of events are not modelled: no
  checked claim mentions them.
-/

/-- Lowercase of a string, character by character (models `toLowerCase`). -/
def jsToLower (s : String) : String := String.mk (s.data.map Char.toLower)

/-- Uppercase of a string, character by character (models `toUpperCase`). -/
def jsToUpper (s : String) : String := String.mk (s.data.map Char.toUpper)

/-- JavaScript truthiness of an optional string: undefined, null and the
empty string are falsy. -/
def truthy (o : Option String) : Bool :=
  match o with
  | none => false
  | some s => !(s = "")

/-- JavaScript `a || b` on optional strings. -/
def jsOr (a b : Option String) : Option String :=
  if truthy a then a else b

/-- Substring test on character lists: does the second list contain the
first one as a contiguous run?  Models `String.prototype.includes`. -/
def charsHasSub (pat : List Char) : List Char → Bool
  | [] => pat.isEmpty
  | c :: rest => pat.isPrefixOf (c :: rest) || charsHasSub pat rest

/-- Substring test on strings: `strHasSub s pat` holds when `s` contains
`pat`.  Models `s.includes(pat)`. -/
def strHasSub (s pat : String) : Bool := charsHasSub pat.data s.data

/-- Stable insertion step for `sortBy`. -/
def insertSorted {α : Type} (le : α → α → Bool) (a : α) : List α → List α
  | [] => [a]
  | b :: bs => if le a b then a :: b :: bs else b :: insertSorted le a bs

/-- Comparison sort used to model `Array.prototype.sort` and SQL
`ORDER BY`.  Only the sortedness matters for the claims below, never the
order of ties. -/
def sortBy {α : Type} (le : α → α → Bool) : List α → List α
  | [] => []
  | a :: as => insertSorted le a (sortBy le as)

namespace EventTypes

/-- Label table from `src/services/shaped/eventTypes.js` (`EVENT_LABELS`):
the training weight of each interaction event kind. -/
def EVENT_LABELS : List (String × ℚ) :=
  [ ("vote_cast", 1),
    ("lottery_win", 1),
    ("election_shared", 9/10),
    ("election_saved", 8/10),
    ("election_created", 8/10),
    ("verification_done", 7/10),
    ("view_results", 5/10),
    ("video_watched", 5/10),
    ("comment_added", 6/10),
    ("view_election", 3/10),
    ("election_skipped", -3/10),
    ("election_hidden", -7/10),
    ("election_reported", -1),
    ("feed_impression", 0),
    ("search_click", 1/10) ]

/-- Label lookup (`getEventLabel`): table value, defaulting to 0.0 for
event types that are not in the table. -/
def getEventLabel (eventType : String) : ℚ :=
  (EVENT_LABELS.lookup eventType).getD 0

/-- Positive-signal test (`isPositiveEvent`). -/
def isPositiveEvent (eventType : String) : Bool :=
  decide (0 < getEventLabel eventType)

/-- Negative-signal test (`isNegativeEvent`). -/
def isNegativeEvent (eventType : String) : Bool :=
  decide (getEventLabel eventType < 0)

end EventTypes

namespace EventTracker

/-- Interaction event as built by the event tracker
(`createBaseEvent` in the event-tracker module).  The serialized
`metadata` payload is opaque and not modelled. -/
structure Event where
  event_id : String
  user_id : String
  item_id : String
  event_type : String
  label : ℚ
  created_at : String
deriving DecidableEq, Repr

/-- Construction of a tracked event (`createBaseEvent`): the label is the
table lookup for the event type.  `fresh` stands for the generated
`uuidv4()` value and `nowIso` for `new Date().toISOString()`. -/
def createBaseEvent (userId electionId eventType : String)
    (fresh nowIso : String) : Event :=
  { event_id := fresh,
    user_id := userId,
    item_id := electionId,
    event_type := eventType,
    label := EventTypes.getEventLabel eventType,
    created_at := nowIso }

/-- Size threshold that triggers a flush after an enqueue
(`BUFFER_FLUSH_SIZE`). -/
def BUFFER_FLUSH_SIZE : Nat := 100

/-- Deferred tracking path of `trackEvent`: the event is appended to the
end of the in-process buffer (`eventBuffer.push(event)`). -/
def trackEventBuffered (buffer : List Event) (e : Event) : List Event :=
  buffer ++ [e]

/-- Outcome of one run of the flush routine: the batch that was uploaded
(empty when nothing was uploaded) and the buffer contents after the run. -/
structure FlushResult where
  uploaded : List Event
  buffer : List Event
deriving DecidableEq, Repr

/-- Flush routine (`flushEventBuffer` in `src/config/index.js`, lines
317-330).  `buffer` is the buffer at the moment the flush starts (the
snapshot `eventsToSend`), `uploadOk` the outcome of the batched upload and
`arrivals` the events tracked while the upload was awaited (they land in
the freshly cleared buffer).  An empty buffer makes the routine return
before any upload.  On failure the snapshot is prepended back in front of
the newer arrivals (`eventBuffer = [...eventsToSend, ...eventBuffer]`). -/
def flushEventBuffer (buffer : List Event) (uploadOk : Bool)
    (arrivals : List Event) : FlushResult :=
  if buffer.isEmpty then { uploaded := [], buffer := buffer ++ arrivals }
  else if uploadOk then { uploaded := buffer, buffer := arrivals }
  else { uploaded := [], buffer := buffer ++ arrivals }

end EventTracker

namespace VoteSync

/-- Row of the regular-votes table as fetched by `fetchRegularVotes`. -/
structure RegularVote where
  id : String
  voting_id : Option String
  user_id : String
  election_id : String
  status : String
  is_edited : Option Bool
  anonymous : Option Bool
  created_at : Option String
deriving DecidableEq, Repr

/-- Row of the anonymous-votes table as fetched by `fetchAnonymousVotes`. -/
structure AnonymousVote where
  id : String
  voting_id : Option String
  election_id : String
  vote_token : Option String
  voting_session_id : Option String
  created_at : Option String
deriving DecidableEq, Repr

/-- Row of the voter-participation table as fetched by
`fetchVoterParticipation`. -/
structure Participation where
  id : String
  election_id : String
  user_id : String
  has_voted : Bool
  voting_session_id : Option String
  voted_at : Option String
  created_at : String
deriving DecidableEq, Repr

/-- Transform of a regular vote into an external event
(`transformRegularVoteToEvent` in `src/services/shaped/voteSync.js`).
The label is the table lookup for the `vote_cast` event type.  `fresh`
stands for `uuidv4()` and `nowIso` for the current ISO timestamp; the ISO
re-rendering of a present `created_at` is modelled as the identity. -/
def transformRegularVoteToEvent (vote : RegularVote)
    (fresh nowIso : String) : EventTracker.Event :=
  { event_id := (jsOr vote.voting_id (some fresh)).getD fresh,
    user_id := vote.user_id,
    item_id := vote.election_id,
    event_type := "vote_cast",
    label := EventTypes.getEventLabel "vote_cast",
    created_at := vote.created_at.getD nowIso }

/-- Transform of an anonymous vote into an external event
(`transformAnonymousVoteToEvent`, lines 151-169 of
`src/services/shaped/voteSync.js`).  The pseudonymous user id is derived
from the session id, else from the first 16 characters of the vote token,
else from a fresh uuid; the label is the fixed constant 0.8. -/
def transformAnonymousVoteToEvent (vote : AnonymousVote)
    (fresh nowIso : String) : EventTracker.Event :=
  let tokenStub : String :=
    (vote.vote_token.map (fun t => String.mk (t.data.take 16))).getD ""
  let anonymousUserId : String :=
    if truthy vote.voting_session_id then
      "anon_" ++ vote.voting_session_id.getD ""
    else
      "anon_" ++ (if tokenStub = "" then fresh else tokenStub)
  { event_id := (jsOr vote.voting_id (some fresh)).getD fresh,
    user_id := anonymousUserId,
    item_id := vote.election_id,
    event_type := "anonymous_vote",
    label := 8/10,
    created_at := vote.created_at.getD nowIso }

/-- Transform of a participation record into an external event
(`transformParticipationToEvent`, lines 174-190 of
`src/services/shaped/voteSync.js`).  The label is the fixed constant
0.5. -/
def transformParticipationToEvent (participation : Participation)
    (fresh : String) : EventTracker.Event :=
  { event_id := (jsOr participation.voting_session_id (some fresh)).getD fresh,
    user_id := participation.user_id,
    item_id := participation.election_id,
    event_type := "participation",
    label := 5/10,
    created_at := (jsOr participation.voted_at
      (some participation.created_at)).getD participation.created_at }

end VoteSync

namespace ShapedClientApi

/-- Error raised by the HTTP layer for a non-2xx response: the status code
(absent for network-level failures) and the platform error message. -/
structure RequestError where
  status : Option Nat
  message : String
deriving DecidableEq, Repr

/-- Result of a create operation: either the created-resource response
data, or the success-with-flag value `{exists: true, name}` returned when
the resource already exists. -/
inductive CreateOutcome (α : Type) where
  | created (data : α)
  | alreadyExists (name : String)
deriving DecidableEq, Repr

/-- Create-table operation of the external client adapter
(`ShapedClient.createTable`): a conflict response (status 409 or 422) is
normalized to the success value `{exists: true, name}`; every other error
is re-thrown. -/
def createTable (α : Type) (response : Except RequestError α)
    (name : String) : Except RequestError (CreateOutcome α) :=
  match response with
  | .ok d => .ok (.created d)
  | .error e =>
      if e.status = some 409 ∨ e.status = some 422 then
        .ok (.alreadyExists name)
      else .error e

/-- Create-engine operation of the external client adapter
(`ShapedClient.createEngine`): same conflict normalization as
`createTable`, keyed by the engine name from the engine config. -/
def createEngine (α : Type) (response : Except RequestError α)
    (name : String) : Except RequestError (CreateOutcome α) :=
  match response with
  | .ok d => .ok (.created d)
  | .error e =>
      if e.status = some 409 ∨ e.status = some 422 then
        .ok (.alreadyExists name)
      else .error e

end ShapedClientApi

namespace UserSync

/-- Region buckets (`REGION_MAP` in the user-sync module). -/
def REGION_MAP : List (String × Nat) :=
  [ ("US", 1), ("CA", 1),
    ("GB", 2), ("DE", 2), ("FR", 2), ("IT", 2), ("ES", 2), ("NL", 2),
    ("BE", 2), ("AT", 2), ("CH", 2), ("IE", 2), ("PT", 2), ("SE", 2),
    ("NO", 2), ("DK", 2), ("FI", 2),
    ("RU", 3), ("PL", 3), ("UA", 3), ("RO", 3), ("CZ", 3), ("HU", 3),
    ("BG", 3), ("SK", 3), ("HR", 3), ("RS", 3), ("SI", 3), ("LT", 3),
    ("LV", 3), ("EE", 3),
    ("NG", 4), ("ZA", 4), ("EG", 4), ("KE", 4), ("GH", 4), ("TZ", 4),
    ("MA", 4), ("DZ", 4), ("ET", 4), ("UG", 4),
    ("BR", 5), ("MX", 5), ("AR", 5), ("CO", 5), ("CL", 5), ("PE", 5),
    ("VE", 5), ("EC", 5), ("CR", 5), ("PA", 5), ("JM", 5),
    ("IN", 6), ("ID", 6), ("PK", 6), ("BD", 6), ("PH", 6), ("VN", 6),
    ("TH", 6), ("MY", 6), ("SA", 6), ("AE", 6), ("IL", 6), ("TR", 6),
    ("IR", 6),
    ("AU", 7), ("NZ", 7), ("TW", 7), ("KR", 7), ("JP", 7), ("SG", 7),
    ("CN", 8), ("MO", 8), ("HK", 8) ]

/-- Country to region bucket (`getRegionFromCountry`), defaulting to 6. -/
def getRegionFromCountry (countryCode : String) : Nat :=
  (REGION_MAP.lookup (jsToUpper countryCode)).getD 6

/-- Joined row produced by the single-user lookup query of
`syncSingleUser` (and by `fetchUsersFromDB`).  `user_birthyear` models
`new Date(user.user_birthdate).getFullYear()` for a present birthdate. -/
structure UserRow where
  user_id : String
  user_name : Option String
  user_gender : Option Int
  user_country : Option String
  user_birthyear : Option Int
  user_registered : Option String
  user_subscribed : Bool
  user_verified : Bool
  first_name : Option String
  age : Option Int
  gender : Option String
  country : Option String
  city : Option String
  total_votes_cast : Int
  total_elections_created : Int
deriving DecidableEq, Repr

/-- Record uploaded to the external users table. -/
structure ShapedUser where
  user_id : String
  user_name : String
  age : Int
  gender : String
  city : String
  region : Nat
  country : String
  created_at : String
  is_verified : Bool
  total_votes_cast : Int
  subscription_status : String
  total_elections_created : Int
deriving DecidableEq, Repr

/-- Projection of a relational user row into the external schema
(`transformUserForShaped`).  `nowYear` models the current year and
`nowIso` the current ISO timestamp. -/
def transformUserForShaped (nowYear : Int) (nowIso : String)
    (user : UserRow) : ShapedUser :=
  let country : String :=
    if truthy user.country then user.country.getD ""
    else if truthy user.user_country then user.user_country.getD ""
    else "UNKNOWN"
  let gender : String :=
    if truthy user.gender then user.gender.getD ""
    else if user.user_gender = some 1 then "male"
    else if user.user_gender = some 2 then "female"
    else "unknown"
  let age0 : Int := user.age.getD 0
  let age : Int :=
    if age0 = 0 then
      match user.user_birthyear with
      | some birthYear => nowYear - birthYear
      | none => age0
    else age0
  { user_id := user.user_id,
    user_name :=
      if truthy user.user_name then user.user_name.getD ""
      else if truthy user.first_name then user.first_name.getD ""
      else "",
    age := age,
    gender := gender,
    city := if truthy user.city then user.city.getD "" else "",
    region := getRegionFromCountry country,
    country := country,
    created_at :=
      if truthy user.user_registered then user.user_registered.getD ""
      else nowIso,
    is_verified := user.user_verified,
    total_votes_cast := user.total_votes_cast,
    subscription_status := if user.user_subscribed then "subscribed" else "free",
    total_elections_created := user.total_elections_created }

/-- Result of a single-user sync: the structured outcome plus the batches
actually sent to the external insert endpoint. -/
structure SingleUserSyncResult where
  success : Bool
  reason : Option String := none
  user : Option ShapedUser := none
  uploads : List (List ShapedUser) := []
deriving DecidableEq, Repr

/-- Single-user real-time sync (`syncSingleUser`, lines 128-161 of the
user-sync module).  `row` is the outcome of the primary-key lookup; a
missing row yields the structured not-found result with no upload.  A
found row is transformed and uploaded as a singleton batch; an upload
failure propagates as an exception (the source has no try/catch here). -/
def syncSingleUser (row : Option UserRow) (uploadOk : Bool)
    (nowYear : Int) (nowIso : String) : Except Unit SingleUserSyncResult :=
  match row with
  | none => .ok { success := false, reason := some "User not found" }
  | some u =>
      let transformedUser := transformUserForShaped nowYear nowIso u
      if uploadOk then
        .ok { success := true, user := some transformedUser,
              uploads := [[transformedUser]] }
      else .error ()

end UserSync

namespace Rec

/-- Item metadata as returned by the external query and rank endpoints
(the flattened `item.metadata` object).  All fields are optional; numeric
fields are modelled directly (the JavaScript code re-parses them with
`parseInt`/`parseFloat` and defaults missing values). -/
structure Meta where
  status : Option String := none
  end_date : Option String := none
  created_at : Option String := none
  start_date : Option String := none
  engagement_score : Option ℚ := none
  vote_count : Option Int := none
  view_count : Option Int := none
  lottery_enabled : Option Bool := none
  lottery_prize_pool : Option ℚ := none
  category_id : Option Int := none
  title : Option String := none
deriving DecidableEq, Repr

/-- One row of an external query or rank response: `{id, item_id,
metadata}`. -/
structure QueryItem where
  id : Option String := none
  item_id : Option String := none
  metadata : Meta := {}
deriving DecidableEq, Repr

/-- Flattened election object built by the orchestrator
(`{id: item.id, ...item.metadata}`).  The constant source-tagging fields
(`recommendation_source` and friends) are the same on every element of a
response and are not modelled; no claim mentions them. -/
structure Election extends Meta where
  id : Option String := none
deriving DecidableEq, Repr

/-- Flattening of a query-endpoint row (`{id: item.id, ...item.metadata}`). -/
def electionOfQueryItem (it : QueryItem) : Election :=
  { it.metadata with id := it.id }

/-- Flattening of a rank-endpoint row (`{id: item.id || item.item_id,
...item.metadata}`). -/
def electionOfRankItem (it : QueryItem) : Election :=
  { it.metadata with id := jsOr it.id it.item_id }

/-- Row of the relational elections table as the SQL fallback queries see
it: statuses are definite strings, timestamps are definite integers. -/
structure DbElection where
  id : String
  status : String
  end_date : Int
  created_at : Int
  vote_count : Int
  view_count : Int
  lottery_enabled : Bool
  lottery_total_prize_pool : ℚ
  category_id : Int
deriving DecidableEq, Repr

/-- Element of a response `data` array: either a flattened external item
or a raw relational row (the fallback queries return rows unchanged). -/
inductive Row where
  | shaped (e : Election)
  | db (r : DbElection)
deriving DecidableEq, Repr

/-- Identifier of a data row, when present. -/
def Row.rowId : Row → Option String
  | .shaped e => e.id
  | .db r => some r.id

/-- Pagination object of a response envelope. -/
structure Pagination where
  limit : Nat
  offset : Nat
  total : Nat
deriving DecidableEq, Repr

/-- Response envelope of the recommendation operations
(`RecommendationResult`).  Absent JavaScript fields are `none`. -/
structure RecResult where
  success : Bool
  data : List Row
  pagination : Option Pagination := none
  message : Option String := none
  is_new_user : Option Bool := none
  is_personalized : Option Bool := none
  user_vote_count : Option Nat := none
  recommendation_type : Option String := none
  source : Option String := none
  source_election_id : Option String := none
  error : Option String := none
deriving DecidableEq, Repr

/-- Error thrown by a failed external call: HTTP status of the response
(absent for network-level failures) and the error message. -/
structure ShapedError where
  status : Option Nat
  message : String
deriving DecidableEq, Repr

/-- Environment of one orchestrator invocation: the abstract date parser,
the evaluation instant, and the outcome of each external or relational
call the operation may make.  `.error` stands for a thrown exception. -/
structure Env where
  parse : String → Option Int
  now : Int
  voteCountQuery : Except Unit Nat
  rankResponse : Except ShapedError (List QueryItem)
  queryResponse : Except ShapedError (List QueryItem)
  dbElections : List DbElection
  dbFails : Bool

/-- Test for a trailing UTC marker (`dateStr.endsWith('Z')`). -/
def endsWithUtcMarker (s : String) : Bool := s.data.getLast? == some 'Z'

/-- Test for a plus sign anywhere (`dateStr.includes('+')`). -/
def containsPlus (s : String) : Bool := s.data.contains '+'

/-- Test for a trailing negative timezone offset: a minus sign, two
digits, a colon and two digits at the end of the string (the regular
expression match of the source). -/
def hasNegOffsetSuffix (s : String) : Bool :=
  match s.data.reverse with
  | c1 :: c2 :: ':' :: c3 :: c4 :: '-' :: _ =>
      c1.isDigit && c2.isDigit && c3.isDigit && c4.isDigit
  | _ => false

/-- Date normalization of `filterActiveElections`: when the string carries
no explicit timezone, a UTC marker is appended before parsing. -/
def normalizeDateStr (s : String) : String :=
  if !endsWithUtcMarker s && !containsPlus s && !hasNegOffsetSuffix s then
    s ++ "Z"
  else s

/-- Lowercased status with the JavaScript default for a missing value
(`(election.status || '').toLowerCase()`). -/
def statusLower (status : Option String) : String :=
  jsToLower (status.getD "")

/-- Date part of the active predicate for a truthy end-date string: the
normalized string is parsed; an unparsable date keeps the item (fail
open); a parsed end instant strictly before `now` drops it. -/
def parsedEndKeeps (parse : String → Option Int) (now : Int)
    (d : String) : Bool :=
  match parse (normalizeDateStr d) with
  | none => true
  | some endTs => if endTs < now then false else true

/-- Date part of the active predicate: a missing or empty (falsy)
end-date string never drops the item; otherwise `parsedEndKeeps`
decides. -/
def endDateKeeps (parse : String → Option Int) (now : Int) :
    Option String → Bool
  | none => true
  | some d => if d = "" then true else parsedEndKeeps parse now d

/-- Per-element predicate of `filterActiveElections`
(`src/services/shaped/recommendations.js`, lines 64-122): draft and
cancelled items are dropped; otherwise the end-date check decides. -/
def isActiveElection (parse : String → Option Int) (now : Int)
    (status end_date : Option String) : Bool :=
  if statusLower status = "draft" ∨ statusLower status = "cancelled" then false
  else endDateKeeps parse now end_date

/-- Active-item filter (`filterActiveElections`). -/
def filterActiveElections (parse : String → Option Int) (now : Int)
    (elections : List Election) : List Election :=
  elections.filter (fun e => isActiveElection parse now e.status e.end_date)

/-- Validity test on the incoming user identity
(`!userId || userId === 'undefined' || userId === 'null'`). -/
def invalidUserId (userId : Option String) : Bool :=
  match userId with
  | none => true
  | some s => s = "" || s = "undefined" || s = "null"

/-- Historical vote-count lookup (`getUserVoteCount`): the count from the
relational store, with a thrown query error caught and turned into 0. -/
def getUserVoteCount (env : Env) : Nat :=
  match env.voteCountQuery with
  | .ok n => n
  | .error _ => 0

/-- Broad candidate fetch for new users (`getTrendingForNewUsers`): the
generic item query, flattened; a thrown error is caught and turned into
an empty list.  The requested over-fetch multiplier only affects the
query string sent to the platform, so it does not appear here. -/
def getTrendingForNewUsers (env : Env) : List Election :=
  match env.queryResponse with
  | .ok results => results.map electionOfQueryItem
  | .error _ => []

/-- SQL filter of the fallback election queries:
`status IN ('published','active') AND end_date > NOW()`. -/
def dbActiveFilter (now : Int) (r : DbElection) : Bool :=
  (r.status == "published" || r.status == "active") && decide (now < r.end_date)

/-- Relational fallback of the for-you read (`getFallbackElections`):
published or active, not expired, newest first, `LIMIT $1 OFFSET $2`.
The returned envelope carries no pagination object. -/
def getFallbackElections (env : Env) (limit offset : Nat) : RecResult :=
  if env.dbFails then
    { success := false, data := [], error := some "db_error" }
  else
    { success := true,
      data := (((sortBy (fun a b => decide (b.created_at ≤ a.created_at))
          (env.dbElections.filter (dbActiveFilter env.now))).drop offset).take
            limit).map Row.db,
      source := some "database_fallback" }

/-- Relational fallback of the similar-items read
(`getFallbackSimilarElections`): same category as the source election,
excluding the source election, published or active, not expired, newest
first, limited. -/
def getFallbackSimilarElections (env : Env) (electionId : String)
    (limit : Nat) : RecResult :=
  if env.dbFails then
    { success := false, data := [], error := some "db_error" }
  else
    { success := true,
      data := ((sortBy (fun a b => decide (b.created_at ≤ a.created_at))
          (env.dbElections.filter (fun r =>
            (match (env.dbElections.find? (fun s => s.id == electionId)).map
                (fun s => s.category_id) with
             | some c => r.category_id == c
             | none => false)
            && !(r.id == electionId)
            && dbActiveFilter env.now r))).take limit).map Row.db,
      source := some "database_fallback" }

/-- Message of the personalized branch. -/
def personalizedMessage (n : Nat) : String :=
  "Based on your " ++ toString n ++ " vote" ++ (if 1 < n then "s" else "") ++
    ", here are elections recommended for you."

/-- Message of the general branch. -/
def generalMessage (n : Nat) : String :=
  "Based on your " ++ toString n ++ " vote" ++ (if 1 < n then "s" else "") ++
    ", here are elections you might like."

/-- Primary for-you read (`getElectionsForYou`,
`src/services/shaped/recommendations.js`, lines 130-264).  The branches,
in source order: anonymous identity; zero historical votes; personalized
rank call; general query after a rank failure; trending after an outer
error that looks like an unknown user; full relational fallback. -/
def getElectionsForYou (env : Env) (userId : Option String)
    (limit offset : Nat) : RecResult :=
  if invalidUserId userId then
    let activeElections := filterActiveElections env.parse env.now
      (getTrendingForNewUsers env)
    { success := true,
      data := (activeElections.take limit).map Row.shaped,
      pagination := some
        { limit := limit, offset := offset, total := activeElections.length },
      message := some
        "Please login to get personalized recommendations. Showing trending elections.",
      is_new_user := some true,
      user_vote_count := some 0,
      recommendation_type := some "trending" }
  else
    if getUserVoteCount env = 0 then
      let activeElections := filterActiveElections env.parse env.now
        (getTrendingForNewUsers env)
      { success := true,
        data := (activeElections.take limit).map Row.shaped,
        pagination := some
          { limit := limit, offset := offset, total := activeElections.length },
        message := some
          "You have not voted yet. Showing trending elections to get you started!",
        is_new_user := some true,
        user_vote_count := some 0,
        recommendation_type := some "trending" }
    else
      match env.rankResponse with
      | .ok rankResults =>
          let elections := (filterActiveElections env.parse env.now
            ((if 0 < offset then rankResults.drop offset else rankResults).map
              electionOfRankItem)).take limit
          { success := true,
            data := elections.map Row.shaped,
            pagination := some
              { limit := limit, offset := offset, total := elections.length },
            message := some (personalizedMessage (getUserVoteCount env)),
            is_personalized := some true,
            is_new_user := some false,
            user_vote_count := some (getUserVoteCount env),
            recommendation_type := some "personalized" }
      | .error _ =>
          match env.queryResponse with
          | .ok queryResults =>
              let elections := (filterActiveElections env.parse env.now
                ((if 0 < offset then queryResults.drop offset
                  else queryResults).map electionOfQueryItem)).take limit
              { success := true,
                data := elections.map Row.shaped,
                pagination := some
                  { limit := limit, offset := offset,
                    total := elections.length },
                message := some (generalMessage (getUserVoteCount env)),
                is_personalized := some false,
                is_new_user := some false,
                user_vote_count := some (getUserVoteCount env),
                recommendation_type := some "general" }
          | .error e =>
              if e.status == some 404 || strHasSub e.message "user" then
                let activeElections := filterActiveElections env.parse env.now
                  (getTrendingForNewUsers env)
                { success := true,
                  data := (activeElections.take limit).map Row.shaped,
                  pagination := some
                    { limit := limit, offset := offset,
                      total := activeElections.length },
                  message := some
                    "Showing trending elections. Vote to get personalized recommendations!",
                  is_new_user := some true,
                  user_vote_count := some 0,
                  recommendation_type := some "trending" }
              else getFallbackElections env limit offset

/-- Pipeline of the similar-items read on the external path: exclusion of
the source election (`item.id !== String(electionId)`) when requested,
then the slice to the requested limit.  No active-item filter appears
here in the source. -/
def similarResults (results : List QueryItem) (electionId : String)
    (excludeSelf : Bool) (limit : Nat) : List QueryItem :=
  (if excludeSelf then
      results.filter (fun it => decide (it.id ≠ some electionId))
    else results).take limit

/-- Similar-items read (`getSimilarElections`,
`src/services/shaped/recommendations.js`, lines 269-311): external
similarity query, self-exclusion, slice, flatten; on a thrown external
error, the relational category fallback. -/
def getSimilarElections (env : Env) (electionId : String) (limit : Nat)
    (excludeSelf : Bool) : RecResult :=
  match env.queryResponse with
  | .ok results =>
      { success := true,
        data := ((similarResults results electionId excludeSelf limit).map
          electionOfQueryItem).map Row.shaped,
        source_election_id := some electionId }
  | .error _ => getFallbackSimilarElections env electionId limit

end Rec

namespace RecPatch

/-- Trending score of one candidate (patched `getTrendingElections`):
recency points within the time window with a floor of 5 outside it (an
unparsable creation date follows the NaN comparisons into the floor),
engagement points (default 0.1, also for a present 0 by JavaScript
truthiness), capped vote points and capped view points. -/
def trendingScore (parse : String → Option Int) (now : Int)
    (timeWindowMs : ℚ) (m : Rec.Meta) : ℚ :=
  let createdAt : Option ℚ :=
    match jsOr m.created_at m.start_date with
    | some s => (parse s).map (fun t => (t : ℚ))
    | none => some ((now : Int) : ℚ)
  let recencyPoints : ℚ :=
    match createdAt with
    | some c =>
        let ageMs : ℚ := max 0 ((now : ℚ) - c)
        if ageMs < timeWindowMs then max 0 (40 * (1 - ageMs / timeWindowMs))
        else 5
    | none => 5
  let engagementScore : ℚ :=
    match m.engagement_score with
    | some q => if q = 0 then 1/10 else q
    | none => 1/10
  recencyPoints + engagementScore * 30 +
    min 20 (((m.vote_count.getD 0 : Int) : ℚ) * 2) +
    min 10 (((m.view_count.getD 0 : Int) : ℚ) * (1/2))

/-- Popularity score of one candidate (patched `getPopularElections`):
capped vote points, capped view points, engagement points, a capped prize
bonus for a positive prize pool, and a base point. -/
def popularityScore (m : Rec.Meta) : ℚ :=
  min 50 (((m.vote_count.getD 0 : Int) : ℚ) * 5) +
    min 25 (((m.view_count.getD 0 : Int) : ℚ) * (1/2)) +
    (match m.engagement_score with
     | some q => if q = 0 then 1/10 else q
     | none => 1/10) * 15 +
    (if 0 < (m.lottery_prize_pool.getD 0 : ℚ) then
        min 10 ((m.lottery_prize_pool.getD 0 : ℚ) / 1000)
      else 0) + 1

/-- Time window in milliseconds (`timeWindow * 24 * 60 * 60 * 1000`). -/
def timeWindowMs (timeWindow : Nat) : ℚ :=
  ((timeWindow * 24 * 60 * 60 * 1000 : Nat) : ℚ)

/-- Scored candidates of the trending read: each flattened item paired
with its trending score (the source stores the score on the object as
`_trending_score`; the pair carries it alongside instead). -/
def trendingCandidates (env : Rec.Env) (timeWindow : Nat)
    (results : List Rec.QueryItem) : List (Rec.Election × ℚ) :=
  results.map (fun it =>
    (Rec.electionOfQueryItem it,
     trendingScore env.parse env.now (timeWindowMs timeWindow) it.metadata))

/-- Trending candidates that survive the active-item filter (the filter
reads only the status and end-date fields, which the score decoration
leaves untouched). -/
def trendingActive (env : Rec.Env) (timeWindow : Nat)
    (results : List Rec.QueryItem) : List (Rec.Election × ℚ) :=
  (trendingCandidates env timeWindow results).filter
    (fun p => Rec.isActiveElection env.parse env.now p.1.status p.1.end_date)

/-- Scored candidates of the popular read. -/
def popularCandidates (results : List Rec.QueryItem) :
    List (Rec.Election × ℚ) :=
  results.map (fun it =>
    (Rec.electionOfQueryItem it, popularityScore it.metadata))

/-- Popular candidates that survive the active-item filter. -/
def popularActive (env : Rec.Env) (results : List Rec.QueryItem) :
    List (Rec.Election × ℚ) :=
  (popularCandidates results).filter
    (fun p => Rec.isActiveElection env.parse env.now p.1.status p.1.end_date)

/-- Relational fallback of the trending read (patched
`getFallbackTrendingElections`): published or active, not expired,
ordered by creation date, then votes, then views, each descending,
limited.  A failed query yields `success: true` with empty data. -/
def getFallbackTrendingElections (env : Rec.Env) (limit : Nat) :
    Rec.RecResult :=
  if env.dbFails then
    { success := true, data := [], error := some "db_error" }
  else
    { success := true,
      data := ((sortBy (fun a b =>
          if a.created_at ≠ b.created_at then decide (b.created_at ≤ a.created_at)
          else if a.vote_count ≠ b.vote_count then decide (b.vote_count ≤ a.vote_count)
          else decide (b.view_count ≤ a.view_count))
          (env.dbElections.filter (Rec.dbActiveFilter env.now))).take
            limit).map Rec.Row.db,
      source := some "database_fallback" }

/-- Relational fallback of the popular read (patched
`getFallbackPopularElections`): published or active, not expired, ordered
by votes, views, prize pool and creation date, each descending, limited.
A failed query yields `success: true` with empty data. -/
def getFallbackPopularElections (env : Rec.Env) (limit : Nat) :
    Rec.RecResult :=
  if env.dbFails then
    { success := true, data := [], error := some "db_error" }
  else
    { success := true,
      data := ((sortBy (fun a b =>
          if a.vote_count ≠ b.vote_count then decide (b.vote_count ≤ a.vote_count)
          else if a.view_count ≠ b.view_count then decide (b.view_count ≤ a.view_count)
          else if a.lottery_total_prize_pool ≠ b.lottery_total_prize_pool then
            decide (b.lottery_total_prize_pool ≤ a.lottery_total_prize_pool)
          else decide (b.created_at ≤ a.created_at))
          (env.dbElections.filter (Rec.dbActiveFilter env.now))).take
            limit).map Rec.Row.db,
      source := some "database_fallback" }

/-- Trending read, patched revision (`getTrendingElections` in the patch
file): external query; empty response falls back immediately; scoring;
active filter; an emptied candidate set falls back; sort by score
descending; slice. -/
def getTrendingElections (env : Rec.Env) (limit timeWindow : Nat) :
    Rec.RecResult :=
  match env.queryResponse with
  | .error _ => getFallbackTrendingElections env limit
  | .ok results =>
      if results.length = 0 then getFallbackTrendingElections env limit
      else
        if (trendingActive env timeWindow results).length = 0 then
          getFallbackTrendingElections env limit
        else
          { success := true,
            data := ((sortBy (fun a b => decide (b.2 ≤ a.2))
              (trendingActive env timeWindow results)).take limit).map
                (fun p => Rec.Row.shaped p.1) }

/-- Popular read, patched revision (`getPopularElections` in the patch
file): same shape as the trending read with the popularity score. -/
def getPopularElections (env : Rec.Env) (limit : Nat) : Rec.RecResult :=
  match env.queryResponse with
  | .error _ => getFallbackPopularElections env limit
  | .ok results =>
      if results.length = 0 then getFallbackPopularElections env limit
      else
        if (popularActive env results).length = 0 then
          getFallbackPopularElections env limit
        else
          { success := true,
            data := ((sortBy (fun a b => decide (b.2 ≤ a.2))
              (popularActive env results)).take limit).map
                (fun p => Rec.Row.shaped p.1) }

end RecPatch

/-- Abstract date parser that fails on every string (used by concrete
instances below; which parser is used never matters for them). -/
def pNone : String → Option Int := fun _ => none

/-- Concrete event used in closed instances. -/
def eventA : EventTracker.Event :=
  { event_id := "e1", user_id := "u1", item_id := "i1",
    event_type := "view_election", label := 0, created_at := "t1" }

/-- Concrete event used in closed instances. -/
def eventB : EventTracker.Event :=
  { event_id := "e2", user_id := "u2", item_id := "i2",
    event_type := "vote_cast", label := 1, created_at := "t2" }

/-- Concrete anonymous-vote row used in closed instances. -/
def anonVoteA : VoteSync.AnonymousVote :=
  { id := "1", voting_id := some "v1", election_id := "9",
    vote_token := none, voting_session_id := some "s1",
    created_at := some "2024-01-01T00:00:00Z" }

/-- Concrete external response row with draft status. -/
def draftItem : Rec.QueryItem :=
  { id := some "2", metadata := { status := some "draft" } }

/-- Concrete flattened election with published status and no end date. -/
def activeElection : Rec.Election :=
  { id := some "1", status := some "published" }

/-- Base environment for closed instances: empty responses, zero votes,
empty relational table, nothing failing. -/
def envBase : Rec.Env :=
  { parse := pNone, now := 0, voteCountQuery := .ok 0,
    rankResponse := .ok [], queryResponse := .ok [],
    dbElections := [], dbFails := false }

/-- Environment whose vote-count query throws. -/
def envVoteFail : Rec.Env := { envBase with voteCountQuery := .error () }

/-- Environment for a returning user where both external endpoints throw
errors that do not look like an unknown user. -/
def envNoPagination : Rec.Env :=
  { envBase with
    voteCountQuery := .ok 5,
    rankResponse := .error { status := some 500, message := "rank down" },
    queryResponse := .error { status := some 500, message := "boom" } }

/-- Environment whose external query returns exactly one draft item. -/
def envSimilar : Rec.Env := { envBase with queryResponse := .ok [draftItem] }

/-- Concrete conflict error from the external platform. -/
def errConflict : ShapedClientApi.RequestError :=
  { status := some 409, message := "resource exists" }

/-- Helper characterization of the date part of the active predicate for
a truthy end-date string. -/
theorem parsedEndKeeps_iff (parse : String → Option Int) (now : Int)
    (d : String) :
    Rec.parsedEndKeeps parse now d = true ↔
      ∀ t, parse (Rec.normalizeDateStr d) = some t → now ≤ t := by
  unfold Rec.parsedEndKeeps
  cases hp : parse (Rec.normalizeDateStr d) with
  | none => simp
  | some endTs => simp

/-- Helper characterization of the date part of the active predicate. -/
theorem endDateKeeps_iff (parse : String → Option Int) (now : Int)
    (ed : Option String) :
    Rec.endDateKeeps parse now ed = true ↔
      ∀ d, ed = some d → d ≠ "" →
        ∀ t, parse (Rec.normalizeDateStr d) = some t → now ≤ t := by
  cases ed with
  | none => simp [Rec.endDateKeeps]
  | some d =>
      by_cases hd : d = ""
      · subst hd
        simp [Rec.endDateKeeps]
      · simp only [Rec.endDateKeeps, if_neg hd]
        rw [parsedEndKeeps_iff]
        simp [hd]

/-- Helper characterization of the per-element active predicate: it holds
exactly when the lowercased status is neither draft nor cancelled and
every parsed, truthy end date is not strictly in the past. -/
theorem isActive_eq_true_iff (parse : String → Option Int) (now : Int)
    (status end_date : Option String) :
    Rec.isActiveElection parse now status end_date = true ↔
      (Rec.statusLower status ≠ "draft" ∧
       Rec.statusLower status ≠ "cancelled" ∧
       ∀ d, end_date = some d → d ≠ "" →
         ∀ t, parse (Rec.normalizeDateStr d) = some t → now ≤ t) := by
  unfold Rec.isActiveElection
  by_cases hst : Rec.statusLower status = "draft" ∨
      Rec.statusLower status = "cancelled"
  · rw [if_pos hst]
    simp only [Bool.false_eq_true, false_iff]
    intro h
    rcases hst with h1 | h1
    · exact h.1 h1
    · exact h.2.1 h1
  · rw [if_neg hst]
    push_neg at hst
    rw [endDateKeeps_iff]
    simp [hst.1, hst.2]

/-- C1.  The active-item filter keeps exactly the input items whose
lowercased status is neither draft nor cancelled and whose end timestamp,
when present, truthy and parsable after UTC normalization, is not
strictly before the evaluation instant; unparsable end dates never
exclude (fail open) and items without an end date are never excluded by
date (both cases make the final condition vacuous). -/
theorem claim_C1_filter_active (parse : String → Option Int) (now : Int)
    (elections : List Rec.Election) (e : Rec.Election) :
    e ∈ Rec.filterActiveElections parse now elections ↔
      (e ∈ elections ∧
       Rec.statusLower e.status ≠ "draft" ∧
       Rec.statusLower e.status ≠ "cancelled" ∧
       ∀ d, e.end_date = some d → d ≠ "" →
         ∀ t, parse (Rec.normalizeDateStr d) = some t → now ≤ t) := by
  unfold Rec.filterActiveElections
  rw [List.mem_filter, isActive_eq_true_iff]

/-- Closed instance of C1: a published item without an end date passes
the filter. -/
theorem claim_C1_witness :
    activeElection ∈ Rec.filterActiveElections pNone 0 [activeElection] :=
  (claim_C1_filter_active pNone 0 [activeElection] activeElection).mpr
    ⟨List.mem_singleton.mpr rfl, by decide, by decide,
     fun d hd => by cases hd⟩

/-- C3.  Flush semantics of the event buffer: a failed upload puts the
whole snapshot back in front of every event tracked after the flush
began; a successful upload leaves exactly the later arrivals in the
buffer, uploads exactly the snapshot, and a snapshotted event that is not
among the arrivals is gone from the buffer (and since any flush uploads
only events from its buffer, it is never re-sent by a later flush). -/
theorem claim_C3_flush_requeue (snapshot arrivals : List EventTracker.Event) :
    (EventTracker.flushEventBuffer snapshot false arrivals).buffer =
        snapshot ++ arrivals ∧
    (EventTracker.flushEventBuffer snapshot true arrivals).buffer = arrivals ∧
    (EventTracker.flushEventBuffer snapshot true arrivals).uploaded = snapshot ∧
    (∀ e, e ∈ snapshot → e ∉ arrivals →
        e ∉ (EventTracker.flushEventBuffer snapshot true arrivals).buffer) ∧
    (∀ later ok more e,
        e ∈ (EventTracker.flushEventBuffer later ok more).uploaded →
          e ∈ later) := by
  refine ⟨?_, ?_, ?_, ?_, ?_⟩
  · cases snapshot <;> simp [EventTracker.flushEventBuffer]
  · cases snapshot <;> simp [EventTracker.flushEventBuffer]
  · cases snapshot <;> simp [EventTracker.flushEventBuffer]
  · intro e hes hea
    cases snapshot with
    | nil => cases hes
    | cons x xs => simpa [EventTracker.flushEventBuffer] using hea
  · intro later ok more e he
    cases later with
    | nil => simp [EventTracker.flushEventBuffer] at he
    | cons x xs =>
        cases ok with
        | true => simpa [EventTracker.flushEventBuffer] using he
        | false => simp [EventTracker.flushEventBuffer] at he

/-- Closed instance of C3: with one snapshotted event and one arrival,
the failed flush leaves the snapshotted event first. -/
theorem claim_C3_witness :
    (EventTracker.flushEventBuffer [eventA] false [eventB]).buffer =
      [eventA, eventB] :=
  (claim_C3_flush_requeue [eventA] [eventB]).1

/-- C6, counterexample.  The anonymous-vote transform emits an event
whose label (0.8) differs from the label-table value of its event type
(`anonymous_vote` is not in the table, so the table gives 0.0). -/
theorem claim_C6_counterexample :
    (VoteSync.transformAnonymousVoteToEvent anonVoteA "fresh" "now").event_type =
        "anonymous_vote" ∧
    (VoteSync.transformAnonymousVoteToEvent anonVoteA "fresh" "now").label ≠
      EventTypes.getEventLabel
        (VoteSync.transformAnonymousVoteToEvent anonVoteA "fresh" "now").event_type := by
  refine ⟨rfl, ?_⟩
  have h : EventTypes.getEventLabel
      (VoteSync.transformAnonymousVoteToEvent anonVoteA "fresh" "now").event_type = 0 := rfl
  rw [h]
  show (8/10 : ℚ) ≠ 0
  norm_num

/-- C6, amended.  Tracked events and regular-vote events carry the
label-table value of their event type; anonymous-vote and participation
events carry the fixed labels 0.8 and 0.5 on event types that are absent
from the table (table value 0.0). -/
theorem claim_C6_amended (userId electionId eventType fresh nowIso f2 n2 f3 : String)
    (rv : VoteSync.RegularVote) (av : VoteSync.AnonymousVote)
    (pp : VoteSync.Participation) :
    (EventTracker.createBaseEvent userId electionId eventType fresh nowIso).label =
        EventTypes.getEventLabel eventType ∧
    (VoteSync.transformRegularVoteToEvent rv f2 n2).label =
        EventTypes.getEventLabel
          (VoteSync.transformRegularVoteToEvent rv f2 n2).event_type ∧
    (VoteSync.transformAnonymousVoteToEvent av f2 n2).event_type =
        "anonymous_vote" ∧
    (VoteSync.transformAnonymousVoteToEvent av f2 n2).label = 8/10 ∧
    EventTypes.getEventLabel "anonymous_vote" = 0 ∧
    (VoteSync.transformParticipationToEvent pp f3).event_type =
        "participation" ∧
    (VoteSync.transformParticipationToEvent pp f3).label = 5/10 ∧
    EventTypes.getEventLabel "participation" = 0 :=
  ⟨rfl, rfl, rfl, rfl, rfl, rfl, rfl, rfl⟩

/-- C7.  The create operations of the external client adapter normalize a
conflict response (status 409 or 422, the platform codes for an already
existing resource) to the success value `{exists: true, name}`; every
other error response is propagated unchanged, and a success response
passes through. -/
theorem claim_C7_create_conflict (e : ShapedClientApi.RequestError)
    (tableName engineName : String) :
    ((e.status = some 409 ∨ e.status = some 422) →
        ShapedClientApi.createTable Unit (.error e) tableName =
          .ok (.alreadyExists tableName) ∧
        ShapedClientApi.createEngine Unit (.error e) engineName =
          .ok (.alreadyExists engineName)) ∧
    (e.status ≠ some 409 → e.status ≠ some 422 →
        ShapedClientApi.createTable Unit (.error e) tableName = .error e ∧
        ShapedClientApi.createEngine Unit (.error e) engineName = .error e) ∧
    (∀ d : Unit,
        ShapedClientApi.createTable Unit (.ok d) tableName =
          .ok (.created d)) := by
  refine ⟨?_, ?_, ?_⟩
  · intro h
    rcases h with h | h <;>
      simp [ShapedClientApi.createTable, ShapedClientApi.createEngine, h]
  · intro h1 h2
    simp [ShapedClientApi.createTable, ShapedClientApi.createEngine, h1, h2]
  · intro d
    rfl

/-- Closed instance of C7: creating the users table and the for-you
engine against a 409 response yields the success-with-flag value. -/
theorem claim_C7_witness :
    ShapedClientApi.createTable Unit (.error errConflict) "vottery_users" =
        .ok (.alreadyExists "vottery_users") ∧
    ShapedClientApi.createEngine Unit (.error errConflict)
        "vottery_elections_for_you" =
      .ok (.alreadyExists "vottery_elections_for_you") :=
  (claim_C7_create_conflict errConflict "vottery_users"
    "vottery_elections_for_you").1 (Or.inl rfl)

/-- C9, counterexample.  For a user id that matches no row, the
single-user sync returns the reason string `User not found`, not the
`User not found for sync` of the claim (that longer text is only the
logged warning). -/
theorem claim_C9_counterexample :
    UserSync.syncSingleUser none true 2025 "2025-01-01T00:00:00.000Z" =
        .ok { success := false, reason := some "User not found" } ∧
    some "User not found" ≠ some "User not found for sync" :=
  ⟨rfl, by decide⟩

/-- C9, amended.  For a user id that matches no row, the single-user sync
returns the structured result `{success: false, reason: 'User not
found'}` without throwing (the value is an `.ok`, whatever the upload
outcome would have been) and attempts no upload (the upload list is
empty). -/
theorem claim_C9_amended (uploadOk : Bool) (nowYear : Int) (nowIso : String) :
    UserSync.syncSingleUser none uploadOk nowYear nowIso =
      .ok { success := false, reason := some "User not found",
            user := none, uploads := [] } := rfl

/-- Closed instance of C9 as amended. -/
theorem claim_C9_witness :
    UserSync.syncSingleUser none false 2025 "t" =
      .ok { success := false, reason := some "User not found",
            user := none, uploads := [] } :=
  claim_C9_amended false 2025 "t"

/-- Helper bounds for the relational for-you fallback: at most `limit`
rows, and no pagination object in the envelope. -/
theorem fallbackElections_spec (env : Rec.Env) (limit offset : Nat) :
    (Rec.getFallbackElections env limit offset).data.length ≤ limit ∧
    (Rec.getFallbackElections env limit offset).pagination = none := by
  unfold Rec.getFallbackElections
  split
  · exact ⟨Nat.zero_le _, rfl⟩
  · refine ⟨?_, rfl⟩
    simp only [List.length_map, List.length_take]
    exact Nat.min_le_left _ _

/-- C2, counterexample.  For a returning user whose rank and query calls
both fail with an ordinary error, the for-you read resolves to the
relational fallback, whose envelope carries no pagination object at all —
so `pagination.limit` does not equal the requested limit there. -/
theorem claim_C2_counterexample :
    (Rec.getElectionsForYou envNoPagination (some "7") 10 0).pagination =
      none := rfl

/-- C2, amended.  Every branch of the for-you read returns at most
`limit` data rows, and every branch that carries a pagination object
records the requested limit in it; the relational database fallback is
the one branch whose envelope carries no pagination object. -/
theorem claim_C2_amended (env : Rec.Env) (userId : Option String)
    (limit offset : Nat) :
    (Rec.getElectionsForYou env userId limit offset).data.length ≤ limit ∧
    ∀ pg,
      (Rec.getElectionsForYou env userId limit offset).pagination = some pg →
        pg.limit = limit := by
  unfold Rec.getElectionsForYou
  split
  · refine ⟨?_, ?_⟩
    · simp only [List.length_map, List.length_take]
      exact Nat.min_le_left _ _
    · intro pg hpg
      simp only [Option.some.injEq] at hpg
      subst hpg
      rfl
  · split
    · refine ⟨?_, ?_⟩
      · simp only [List.length_map, List.length_take]
        exact Nat.min_le_left _ _
      · intro pg hpg
        simp only [Option.some.injEq] at hpg
        subst hpg
        rfl
    · split
      · refine ⟨?_, ?_⟩
        · simp only [List.length_map, List.length_take]
          exact Nat.min_le_left _ _
        · intro pg hpg
          simp only [Option.some.injEq] at hpg
          subst hpg
          rfl
      · split
        · refine ⟨?_, ?_⟩
          · simp only [List.length_map, List.length_take]
            exact Nat.min_le_left _ _
          · intro pg hpg
            simp only [Option.some.injEq] at hpg
            subst hpg
            rfl
        · split
          · refine ⟨?_, ?_⟩
            · simp only [List.length_map, List.length_take]
              exact Nat.min_le_left _ _
            · intro pg hpg
              simp only [Option.some.injEq] at hpg
              subst hpg
              rfl
          · refine ⟨(fallbackElections_spec env limit offset).1, ?_⟩
            intro pg hpg
            rw [(fallbackElections_spec env limit offset).2] at hpg
            cases hpg

/-- Closed instance of the amended C2. -/
theorem claim_C2_witness :
    (Rec.getElectionsForYou envBase (some "7") 10 0).data.length ≤ 10 :=
  (claim_C2_amended envBase (some "7") 10 0).1

/-- C4.  A valid user identity with zero historical votes always receives
the new-user trending branch: `is_new_user` true, recommendation type
`trending`, and no personalized tag (the field is absent). -/
theorem claim_C4_new_user_trending (env : Rec.Env) (userId : String)
    (limit offset : Nat)
    (hvalid : Rec.invalidUserId (some userId) = false)
    (hcount : env.voteCountQuery = .ok 0) :
    (Rec.getElectionsForYou env (some userId) limit offset).is_new_user =
        some true ∧
    (Rec.getElectionsForYou env (some userId) limit offset).recommendation_type =
        some "trending" ∧
    (Rec.getElectionsForYou env (some userId) limit offset).is_personalized =
        none := by
  have hvc : Rec.getUserVoteCount env = 0 := by
    unfold Rec.getUserVoteCount
    rw [hcount]
  simp [Rec.getElectionsForYou, hvalid, hvc]

/-- Closed instance of C4. -/
theorem claim_C4_witness :
    (Rec.getElectionsForYou envBase (some "7") 10 0).is_new_user =
        some true ∧
    (Rec.getElectionsForYou envBase (some "7") 10 0).recommendation_type =
        some "trending" ∧
    (Rec.getElectionsForYou envBase (some "7") 10 0).is_personalized =
        none :=
  claim_C4_new_user_trending envBase "7" 10 0 (by decide) rfl

/-- C10.  When the vote-count lookup throws, the caught error turns the
count into zero, so the for-you read serves the new-user trending branch
(success, `is_new_user` true, `user_vote_count` 0, type `trending`, no
personalized tag) instead of propagating the error. -/
theorem claim_C10_votecount_failure (env : Rec.Env) (userId : String)
    (limit offset : Nat)
    (hvalid : Rec.invalidUserId (some userId) = false)
    (hfail : env.voteCountQuery = .error ()) :
    (Rec.getElectionsForYou env (some userId) limit offset).success = true ∧
    (Rec.getElectionsForYou env (some userId) limit offset).is_new_user =
        some true ∧
    (Rec.getElectionsForYou env (some userId) limit offset).user_vote_count =
        some 0 ∧
    (Rec.getElectionsForYou env (some userId) limit offset).recommendation_type =
        some "trending" ∧
    (Rec.getElectionsForYou env (some userId) limit offset).is_personalized =
        none := by
  have hvc : Rec.getUserVoteCount env = 0 := by
    unfold Rec.getUserVoteCount
    rw [hfail]
  simp [Rec.getElectionsForYou, hvalid, hvc]

/-- Closed instance of C10. -/
theorem claim_C10_witness :
    (Rec.getElectionsForYou envVoteFail (some "7") 10 0).success = true ∧
    (Rec.getElectionsForYou envVoteFail (some "7") 10 0).is_new_user =
        some true ∧
    (Rec.getElectionsForYou envVoteFail (some "7") 10 0).user_vote_count =
        some 0 ∧
    (Rec.getElectionsForYou envVoteFail (some "7") 10 0).recommendation_type =
        some "trending" ∧
    (Rec.getElectionsForYou envVoteFail (some "7") 10 0).is_personalized =
        none :=
  claim_C10_votecount_failure envVoteFail "7" 10 0 (by decide) rfl

/-- C5.  In the patched trending and popular reads, an empty external
response falls back to the relational query immediately, and so does a
candidate set emptied by the active-item filter — the operations never
return an empty external result directly. -/
theorem claim_C5_empty_fallback (env : Rec.Env) (limit timeWindow : Nat) :
    (env.queryResponse = .ok [] →
        RecPatch.getTrendingElections env limit timeWindow =
          RecPatch.getFallbackTrendingElections env limit ∧
        RecPatch.getPopularElections env limit =
          RecPatch.getFallbackPopularElections env limit) ∧
    (∀ results, env.queryResponse = .ok results →
        (RecPatch.trendingActive env timeWindow results = [] →
            RecPatch.getTrendingElections env limit timeWindow =
              RecPatch.getFallbackTrendingElections env limit) ∧
        (RecPatch.popularActive env results = [] →
            RecPatch.getPopularElections env limit =
              RecPatch.getFallbackPopularElections env limit)) := by
  constructor
  · intro h
    constructor
    · unfold RecPatch.getTrendingElections
      rw [h]
      simp
    · unfold RecPatch.getPopularElections
      rw [h]
      simp
  · intro results h
    constructor
    · intro hempty
      unfold RecPatch.getTrendingElections
      rw [h]
      by_cases hlen : results.length = 0
      · simp [hlen]
      · simp [hlen, hempty]
    · intro hempty
      unfold RecPatch.getPopularElections
      rw [h]
      by_cases hlen : results.length = 0
      · simp [hlen]
      · simp [hlen, hempty]

/-- Closed instance of C5: with an empty external response both reads
equal their relational fallbacks. -/
theorem claim_C5_witness :
    RecPatch.getTrendingElections envBase 10 7 =
        RecPatch.getFallbackTrendingElections envBase 10 ∧
    RecPatch.getPopularElections envBase 10 =
        RecPatch.getFallbackPopularElections envBase 10 :=
  (claim_C5_empty_fallback envBase 10 7).1 rfl

/-- Helper rewrite for the similar-items read on a successful external
query. -/
theorem getSimilar_ok (env : Rec.Env) (electionId : String) (limit : Nat)
    (excludeSelf : Bool) (results : List Rec.QueryItem)
    (h : env.queryResponse = .ok results) :
    Rec.getSimilarElections env electionId limit excludeSelf =
      { success := true,
        data := ((Rec.similarResults results electionId excludeSelf limit).map
          Rec.electionOfQueryItem).map Rec.Row.shaped,
        source_election_id := some electionId } := by
  unfold Rec.getSimilarElections
  rw [h]

/-- C8, counterexample.  The similar-items read applies no active-item
filter on the external path: an external response consisting of one draft
item is returned as data even though the active-item filter would drop
it. -/
theorem claim_C8_counterexample :
    (Rec.getSimilarElections envSimilar "1" 5 true).data =
        [Rec.Row.shaped (Rec.electionOfQueryItem draftItem)] ∧
    Rec.filterActiveElections envSimilar.parse envSimilar.now
        [Rec.electionOfQueryItem draftItem] = [] :=
  ⟨rfl, rfl⟩

/-- C8, amended.  On a successful external query the similar-items read
returns at most `limit` rows and, when self-exclusion is requested, no
row carrying the source election id; on a thrown external error it
returns the relational category fallback.  No active-item filter is
applied on the external path. -/
theorem claim_C8_amended (env : Rec.Env) (electionId : String) (limit : Nat)
    (excludeSelf : Bool) :
    (∀ results, env.queryResponse = .ok results →
        (Rec.getSimilarElections env electionId limit excludeSelf).data.length ≤
            limit ∧
        (excludeSelf = true →
          ∀ r ∈ (Rec.getSimilarElections env electionId limit excludeSelf).data,
            Rec.Row.rowId r ≠ some electionId)) ∧
    (∀ e, env.queryResponse = .error e →
        Rec.getSimilarElections env electionId limit excludeSelf =
          Rec.getFallbackSimilarElections env electionId limit) := by
  constructor
  · intro results h
    rw [getSimilar_ok env electionId limit excludeSelf results h]
    constructor
    · simp only [List.length_map]
      unfold Rec.similarResults
      simp only [List.length_take]
      exact Nat.min_le_left _ _
    · intro hex r hr
      subst hex
      obtain ⟨el, hel, rfl⟩ := List.mem_map.mp hr
      obtain ⟨it, hit, rfl⟩ := List.mem_map.mp hel
      have hmem : it ∈ results.filter
          (fun it => decide (it.id ≠ some electionId)) := by
        unfold Rec.similarResults at hit
        rw [if_pos rfl] at hit
        exact List.take_subset _ _ hit
      have hpred := (List.mem_filter.mp hmem).2
      simp only [Rec.Row.rowId, Rec.electionOfQueryItem]
      exact of_decide_eq_true hpred
  · intro e h
    unfold Rec.getSimilarElections
    rw [h]

/-- Closed instance of the amended C8. -/
theorem claim_C8_witness :
    (Rec.getSimilarElections envSimilar "1" 5 true).data.length ≤ 5 :=
  ((claim_C8_amended envSimilar "1" 5 true).1 [draftItem] rfl).1
